import Mathlib

/-!
Shallow embedding of `src/tailwind.config.js`: the module exports a single
static configuration object. JavaScript objects with fixed string keys are
modelled as Lean structures; the `colors`, `minWidth` and `variants` objects,
whose keys are data, are modelled as association lists preserving the textual
order of the source; arrays are Lean lists. The `require(...)` plugin
reference is modelled by the name of the required package.
-/

/-- Shape of the `theme` object of the configuration: a `colors` object
mapping palette name to an object mapping shade name to a color string, and a
`minWidth` object mapping token name to a CSS length string. -/
structure Theme where
  colors : List (String × List (String × String))
  minWidth : List (String × String)
deriving DecidableEq

/-- Shape of the object assigned to `module.exports` in
`src/tailwind.config.js`. The `variants` object is empty in the source; its
entries (were there any) would map a utility name to a list of variant names,
so it is modelled as an association list of that type. Each plugin is
modelled by the package name passed to `require`. -/
structure TailwindConfig where
  purge : List String
  darkMode : Bool
  theme : Theme
  variants : List (String × List String)
  plugins : List String
deriving DecidableEq

/-- The `curiosity` palette literal of `theme.colors`, in source order. -/
def curiosity : List (String × String) :=
  [ ("lightest", "#EFFFCD")
  , ("light", "#DCE9BE")
  , ("dirt", "#555152")
  , ("magenta", "#2E2633")
  , ("red", "#99173C") ]

/-- The object assigned to `module.exports` in `src/tailwind.config.js`,
field for field and in source order. -/
def tailwindConfig : TailwindConfig :=
  { purge :=
      [ "./_includes/**/*.html"
      , "./_layouts/**/*.html"
      , "./_posts/*.md"
      , "./*.html" ]
  , darkMode := false
  , theme :=
      { colors := [("curiosity", curiosity)]
      , minWidth := [("full", "640px")] }
  , variants := []
  , plugins := ["@tailwindcss/typography"] }

/-- Loading (evaluating) the configuration module: the module body has no
free inputs and no effects, so each load yields the exported object. -/
def loadConfig : Unit → TailwindConfig := fun _ => tailwindConfig

/-- Reference definition written from the spec's words: the four-element
purge list, `darkMode` false, the theme with the `curiosity` palette and the
`full` minWidth token, the empty variants object, and the one-element plugins
list naming the typography plugin. -/
def specReferenceConfig : TailwindConfig :=
  { purge :=
      [ "./_includes/**/*.html"
      , "./_layouts/**/*.html"
      , "./_posts/*.md"
      , "./*.html" ]
  , darkMode := false
  , theme :=
      { colors :=
          [ ("curiosity",
              [ ("lightest", "#EFFFCD")
              , ("light", "#DCE9BE")
              , ("dirt", "#555152")
              , ("magenta", "#2E2633")
              , ("red", "#99173C") ]) ]
      , minWidth := [("full", "640px")] }
  , variants := []
  , plugins := ["@tailwindcss/typography"] }

/-- A character is a hexadecimal digit. -/
def isHexDigit (c : Char) : Bool :=
  (decide ('0' ≤ c) && decide (c ≤ '9'))
    || (decide ('A' ≤ c) && decide (c ≤ 'F'))
    || (decide ('a' ≤ c) && decide (c ≤ 'f'))

/-- A string is a hash sign followed by exactly six hexadecimal digits. -/
def isHexColor (s : String) : Bool :=
  match s.data with
  | '#' :: rest => rest.length == 6 && rest.all isHexDigit
  | _ => false

/-- CSS length units a token value may end with. -/
def cssLengthUnits : List String :=
  ["px", "em", "rem", "%", "vh", "vw", "vmin", "vmax", "pt", "pc", "ch",
   "ex", "cm", "mm", "in"]

/-- A string is a nonempty run of decimal digits followed by a CSS length
unit. -/
def isCssLength (s : String) : Bool :=
  let digits := s.data.takeWhile Char.isDigit
  let rest := s.data.dropWhile Char.isDigit
  (!digits.isEmpty) && cssLengthUnits.contains (String.mk rest)

/-- A string is a glob pattern: it contains the glob wildcard character. -/
def isGlobPattern (s : String) : Bool :=
  s.data.contains '*'

/-- A string ends with the given suffix. -/
def strEndsWith (s suffix : String) : Bool :=
  List.isSuffixOf suffix.data s.data

/-- C1: the exported configuration object equals, field for field, the
reference definition assembled from the spec: the four-element purge list,
`darkMode` false, the theme with the `curiosity` palette and the `full`
minWidth token, the empty variants object, and the one-element plugins
list. -/
theorem tailwindConfig_eq_specReference : tailwindConfig = specReferenceConfig := by
  decide

/-- C2: the `purge` field is the ordered list of the four glob-pattern
strings written in the source, in that order, and every element of it is a
glob pattern. -/
theorem purge_ordered_globs :
    tailwindConfig.purge =
      [ "./_includes/**/*.html"
      , "./_layouts/**/*.html"
      , "./_posts/*.md"
      , "./*.html" ]
    ∧ tailwindConfig.purge.all isGlobPattern = true := by
  exact ⟨rfl, by decide⟩

/-- C3: every shade value of every palette of `theme.colors` is a hash sign
followed by six hexadecimal digits. -/
theorem colors_all_hex :
    (tailwindConfig.theme.colors.all
      (fun palette => palette.2.all (fun shade => isHexColor shade.2))) = true := by
  decide

/-- C4: the `darkMode` field of the exported configuration is the boolean
`false`. -/
theorem darkMode_is_false : tailwindConfig.darkMode = false := rfl

/-- C5: `theme.minWidth` is exactly the one-entry mapping sending the token
`full` to the CSS length string `640px`, and every value under it is a number
followed by a CSS length unit. -/
theorem minWidth_css_lengths :
    tailwindConfig.theme.minWidth = [("full", "640px")]
    ∧ tailwindConfig.theme.minWidth.all (fun entry => isCssLength entry.2) = true := by
  exact ⟨rfl, by decide⟩

/-- C6: the `variants` field of the exported configuration is the empty
object: it has no entries at all. -/
theorem variants_empty : tailwindConfig.variants = [] := rfl

/-- C7: the `plugins` field is a list of length exactly one whose single
element is the reference to the typography plugin package. -/
theorem plugins_single_typography :
    tailwindConfig.plugins = ["@tailwindcss/typography"]
    ∧ tailwindConfig.plugins.length = 1 := ⟨rfl, rfl⟩

/-- C8: evaluating the configuration module is deterministic and read-only:
any two loads of the module yield equal values, each equal to the exported
configuration, so consuming the configuration leaves it unchanged. -/
theorem loadConfig_deterministic :
    ∀ (u v : Unit), loadConfig u = loadConfig v ∧ loadConfig u = tailwindConfig :=
  fun _ _ => ⟨rfl, rfl⟩

/-- C9: `theme.colors` defines exactly one palette, named `curiosity`, and
that palette defines exactly the five shades `lightest`, `light`, `dirt`,
`magenta`, `red`, in that order, with no other palette or shade names. -/
theorem colors_single_curiosity_palette :
    tailwindConfig.theme.colors.map Prod.fst = ["curiosity"]
    ∧ tailwindConfig.theme.colors.map (fun palette => palette.2.map Prod.fst) =
        [["lightest", "light", "dirt", "magenta", "red"]] := ⟨rfl, rfl⟩

/-- C10: every element of the purge list ends in `.html` or `.md`, and the
only element ending in `.md` is the `_posts` pattern, which begins with the
`_posts` directory path. -/
theorem purge_only_html_and_posts_md :
    tailwindConfig.purge.all
      (fun s => strEndsWith s ".html" || strEndsWith s ".md") = true
    ∧ tailwindConfig.purge.filter (fun s => strEndsWith s ".md") = ["./_posts/*.md"]
    ∧ (List.isPrefixOf "./_posts/".data "./_posts/*.md".data) = true := by
  exact ⟨by decide, by decide, by decide⟩
